import Mathlib

/-!
Shallow embedding of the bathymetry-derivative functions in
`BPI_functions.py` (functions `bpi`, `stdbpi`, `run_con`, `classifyBPI`,
`terrug`).

Modelling conventions:
* A raster is a total function from an index type of cells to rational
  cell values.  The external Raster Engine (arcpy / Spatial Analyst) is
  out of scope per the specification; its whole-raster primitives are
  embedded pointwise, and the primitives whose internals the repository
  never sees (annular focal mean, global mean and standard deviation,
  trigonometric functions) are taken as explicit parameters.
* `arcpy.sa.Int` converts each cell to an integer by truncation of the
  decimal part, i.e. truncation toward zero (`truncToZero`), which is
  also how the specification describes the RasterAlgebra rounding
  primitive (add 0.5, then truncate).
* `arcpy.sa.Con(in_grid, tv, 0, "VALUE cmp b")` is embedded per cell as
  an if-then-else on the comparison, where `tv` evaluated at a cell is
  the constant when `tv` is a number and the cell value of `tv` when it
  is a raster.
* A Python value that is either `None`, a scalar, or a raster (the
  dynamically typed `true_val` / `out_grid` of `run_con`) is embedded as
  the tagged type `RVal`.
* The error kinds named by the specification are the inductive
  `ErrKind`; functions are wrapped in `Except ErrKind` so that the
  error-handling claims are statable.  The only error the source raises
  is `NoValidClasses` (class defined at BPI_functions.py line 108).
-/

namespace BathyDeriv

/-- Error kinds named in the specification, section 7.  The source code
defines only the `NoValidClasses` exception. -/
inductive ErrKind where
  | InvalidParameter
  | DegenerateInput
  | NoValidClasses
  | EngineFailure
deriving DecidableEq

/-- A dynamically typed Python value as used by `run_con`: either
`None`, a numeric scalar (the class id), or a raster over cells `ι`. -/
inductive RVal (ι : Type) where
  | none : RVal ι
  | num : ℚ → RVal ι
  | raster : (ι → ℚ) → RVal ι

/-- Cell evaluation of a `Con` true-value: a number acts as a constant
raster, a raster is evaluated at the cell.  The `none` case cannot occur
in any `Con` the source builds (the caller always supplies a class id);
it is given the junk value 0. -/
def RVal.cellAt {ι : Type} : RVal ι → ι → ℚ
  | RVal.none, _ => 0
  | RVal.num q, _ => q
  | RVal.raster r, c => r c

/-- BPI_functions.py lines 84-86: if our initial desired output value
is not set, use the backup (`if true_val is None: true_val = true_alt`). -/
def RVal.orAlt {ι : Type} : RVal ι → RVal ι → RVal ι
  | RVal.none, ta => ta
  | tv, _ => tv

variable {ι : Type}

/-- BPI_functions.py lines 75-105, `run_con`: conditionally evaluate a
raster range within bounds.  `Option.none` bounds correspond to Python
`None` bounds.  The source returns either a raster (`RVal.raster`) or
Python `None` (`RVal.none`). -/
def run_con (lower_bounds upper_bounds : Option ℚ) (in_grid : ι → ℚ)
    (true_val true_alt : RVal ι) : RVal ι :=
  -- line 85-86: if our initial desired output value isn't set, use the backup
  let tv := RVal.orAlt true_val true_alt
  -- lines 88-99: calculate our output grid
  match lower_bounds, upper_bounds with
  | some lb, some ub =>
      -- out_grid_a = Con(in_grid, true_val, 0, "VALUE < ub")
      let out_grid_a : ι → ℚ := fun c => if in_grid c < ub then RVal.cellAt tv c else 0
      -- out_grid = Con(in_grid, out_grid_a, 0, "VALUE > lb")
      RVal.raster (fun c => if in_grid c > lb then out_grid_a c else 0)
  | some lb, Option.none =>
      -- out_grid = Con(in_grid, true_val, 0, "VALUE >= lb")
      RVal.raster (fun c => if in_grid c ≥ lb then RVal.cellAt tv c else 0)
  | Option.none, some ub =>
      -- out_grid = Con(in_grid, true_val, 0, "VALUE <= ub")
      RVal.raster (fun c => if in_grid c ≤ ub then RVal.cellAt tv c else 0)
  | Option.none, Option.none =>
      -- lines 101-103: out_grid is still None; if true_val is a Raster,
      -- return it, otherwise return None
      match tv with
      | RVal.raster r => RVal.raster r
      | _ => RVal.none

/-- One row of the classification table as read by
`utils.BtmDocument(...).classification()` and consumed at
BPI_functions.py lines 125-143.  `Class` is the numeric class id (the
source stores raster cell values from it, and keys the zone dictionary
by its string form; two ids are string-equal iff they are equal, so the
key is embedded over the numeric id). -/
structure RuleRow where
  Class : ℚ
  Zone : String
  Depth_LowerBounds : Option ℚ
  Depth_UpperBounds : Option ℚ
  Slope_LowerBounds : Option ℚ
  Slope_UpperBounds : Option ℚ
  LSB_LowerBounds : Option ℚ
  LSB_UpperBounds : Option ℚ
  SSB_LowerBounds : Option ℚ
  SSB_UpperBounds : Option ℚ

/-- BPI_functions.py lines 123-129: the zone key starts as
`{'0': 'None'}` and every iteration of the class loop performs
`key[cur_class] = cur_name` before any mask validity check.  Python
dictionary assignment overwrites, so the assoc list is built by
prepending and looked up first-match-wins. -/
def zoneKey (classes : List RuleRow) : List (ℚ × String) :=
  List.foldl (fun k item => (item.Class, item.Zone) :: k) [((0 : ℚ), "None")] classes

/-- Dictionary lookup `key[val]` with the `val in key` test:
`Option.none` when the value is absent. -/
def lookupZone (key : List (ℚ × String)) (v : ℚ) : Option String :=
  Option.map Prod.snd (List.find? (fun p => decide (p.1 = v)) key)

/-- BPI_functions.py lines 130-143: the chained conditional statements
building one class mask (depth, then slope, then fine BPI, then broad
BPI). -/
def ruleMask (item : RuleRow) (bpi_broad_std bpi_fine_std slope bathy : ι → ℚ) :
    RVal ι :=
  let cur_class := RVal.num item.Class
  let out_con := run_con item.Depth_LowerBounds item.Depth_UpperBounds
    bathy cur_class RVal.none
  let out_con2 := run_con item.Slope_LowerBounds item.Slope_UpperBounds
    slope out_con cur_class
  let out_con3 := run_con item.LSB_LowerBounds item.LSB_UpperBounds
    bpi_fine_std out_con2 cur_class
  let out_con4 := run_con item.SSB_LowerBounds item.SSB_UpperBounds
    bpi_broad_std out_con3 cur_class
  out_con4

/-- BPI_functions.py line 145: the mask is kept iff
`type(out_con4) == arcpy.sa.Raster`. -/
def maskGrid : RVal ι → Option (ι → ℚ)
  | RVal.raster r => some (r)
  | _ => Option.none

/-- BPI_functions.py lines 123-147: the list `grids` of per-rule masks
that pass the raster check (`grids.append(rast)`); rules failing the
check are only warned about (lines 149-165) and contribute nothing. -/
def classGrids (classes : List RuleRow) (bpi_broad_std bpi_fine_std slope bathy : ι → ℚ) :
    List (ι → ℚ) :=
  List.filterMap (fun item => maskGrid (ruleMask item bpi_broad_std bpi_fine_std slope bathy))
    classes

/-- BPI_functions.py line 173: one step of the merge loop,
`Con(merge_grid, grids[i], merge_grid, "VALUE = 0")`: where the
accumulated raster holds 0, take the next grid, else keep. -/
def mergeStep (merge_grid g : ι → ℚ) : ι → ℚ :=
  fun c => if merge_grid c = 0 then g c else merge_grid c

/-- BPI_functions.py lines 171-173: `merge_grid = grids[0]` then the
fold over the remaining grids. -/
def mergeAll (g0 : ι → ℚ) (gs : List (ι → ℚ)) : ι → ℚ :=
  List.foldl mergeStep g0 gs

/-- BPI_functions.py lines 177-185: the attribute-table annotation.  Per
cell value `val`, `key[val]` when `val in key`, else
`'No Matching Zone'`. -/
def annotate (key : List (ℚ × String)) (m : ι → ℚ) : ι → String :=
  fun c => Option.getD (lookupZone key (m c)) "No Matching Zone"

/-- BPI_functions.py lines 112-187, `classifyBPI`: builds the zone key
and the per-rule masks, raises `NoValidClasses` when no rule produced a
usable mask (lines 167-168), otherwise merges the masks in table order
(lines 171-173) and annotates the merged raster with zone names (lines
177-185).  The result is the merged raster, the per-cell zone labels,
and the zone key. -/
def classifyBPI (classes : List RuleRow)
    (bpi_broad_std bpi_fine_std slope bathy : ι → ℚ) :
    Except ErrKind ((ι → ℚ) × (ι → String) × List (ℚ × String)) :=
  let key := zoneKey classes
  match classGrids classes bpi_broad_std bpi_fine_std slope bathy with
  | [] => Except.error ErrKind.NoValidClasses
  | g :: gs =>
      let merge_grid := mergeAll g gs
      Except.ok (merge_grid, annotate key merge_grid, key)

/-- `arcpy.sa.Int`: converts each cell value to an integer by truncating
the decimal portion, i.e. truncation toward zero. -/
def truncToZero (q : ℚ) : ℤ :=
  if 0 ≤ q then Int.floor q else Int.ceil q

/-- BPI_functions.py lines 41-53, `bpi`: focal mean of bathymetry over
the annulus built from the two radii, then
`Int(Plus(Minus(bathy, out_focal_statistics), 0.5))`.  The engine
focal-mean primitive (`FocalStatistics(..., NbrAnnulus(inner, outer,
"CELL"), "MEAN")`) is external and passed as the parameter
`focalMean inner outer`.  The source performs no validation of the
radii and raises nothing, so the result is always `Except.ok`. -/
def bpi (focalMean : ℕ → ℕ → (ι → ℚ) → ι → ℚ) (bathy : ι → ℚ)
    (inner_radius outer_radius : ℕ) : Except ErrKind (ι → ℤ) :=
  Except.ok (fun c =>
    truncToZero (bathy c - focalMean inner_radius outer_radius bathy c + 1/2))

/-- BPI_functions.py lines 56-71, `stdbpi`:
`Int(Plus(Times(Divide(Minus(bpi_raster, bpi_mean), bpi_std_dev), 100), 0.5))`.
The global mean and standard deviation come from the engine
(`utils.raster_properties`) and are passed as parameters.  The source
performs no check of the standard deviation and raises nothing, so the
result is always `Except.ok`. -/
def stdbpi (bpi_mean bpi_std_dev : ℚ) (bpi_raster : ι → ℚ) :
    Except ErrKind (ι → ℤ) :=
  Except.ok (fun c =>
    truncToZero ((bpi_raster c - bpi_mean) / bpi_std_dev * 100 + 1/2))

/-- The rounding rule exactly as the specification words it for claim
C6: add 0.5 then truncate toward zero for positive values, and for
negative values the result is `floor(x + 0.5)`. -/
def bpiSpecRound (x : ℚ) : ℤ :=
  if 0 ≤ x then truncToZero (x + 1/2) else Int.floor (x + 1/2)

/-- Grid cells for the sliding-window ruggedness computation. -/
abbrev Cell := ℤ × ℤ

/-- The engine trigonometry (`Sin`, `Cos`, the `** 0.5` square root) and
the constant `math.pi`, taken as explicit parameters: the repository
calls them but never defines them. -/
structure TrigOps where
  sin : ℚ → ℚ
  cos : ℚ → ℚ
  sqrt : ℚ → ℚ
  pi : ℚ

/-- Offsets of the `NbrRectangle(n, n, "CELL")` window around a cell. -/
def nbrOffsets (n : ℕ) : Finset Cell :=
  Finset.product (Finset.Icc (-((n : ℤ) / 2)) (((n : ℤ) - 1) / 2))
    (Finset.Icc (-((n : ℤ) / 2)) (((n : ℤ) - 1) / 2))

/-- `FocalStatistics(g, NbrRectangle(n, n, "CELL"), "SUM", "NODATA")`:
the neighborhood sum over the `n` by `n` window. -/
def focalSum (n : ℕ) (g : Cell → ℚ) : Cell → ℚ :=
  fun c => Finset.sum (nbrOffsets n) (fun d => g (c.1 + d.1, c.2 + d.2))

/-- BPI_functions.py lines 190-224, `terrug`: the vector ruggedness
measure.  Slope and aspect are converted to radians (lines 204-205), the
x, y, z component rasters are computed with the aspect sentinel `-1`
zeroing x and y (lines 208-211), the components are summed over the
square window (lines 214-217), and the output is
`1 - result_vect / hood_size**2` (lines 220-223).  The source performs
no validation of the window size and raises nothing, so the result is
always `Except.ok`. -/
def terrug (ops : TrigOps) (neighborhood_size : ℕ)
    (slope_raster aspect_raster : Cell → ℚ) : Except ErrKind (Cell → ℚ) :=
  let hood_size := neighborhood_size
  -- lines 204-205: convert slope and aspect rasters to radians
  let slope_rad := fun c => slope_raster c * (ops.pi / 180)
  let aspect_rad := fun c => aspect_raster c * (ops.pi / 180)
  -- lines 208-211: calculate x, y, and z rasters
  let xy_raster_calc := fun c => ops.sin (slope_rad c)
  let z_raster_calc := fun c => ops.cos (slope_rad c)
  let x_raster_calc := fun c =>
    (if aspect_raster c = -1 then 0 else ops.sin (aspect_rad c)) * xy_raster_calc c
  let y_raster_calc := fun c =>
    (if aspect_raster c = -1 then 0 else ops.cos (aspect_rad c)) * xy_raster_calc c
  -- lines 214-217: sums of x, y, and z rasters for the neighborhood
  let x_sum_calc := focalSum hood_size x_raster_calc
  let y_sum_calc := focalSum hood_size y_raster_calc
  let z_sum_calc := focalSum hood_size z_raster_calc
  -- line 220: the resultant vector
  let result_vect := fun c =>
    ops.sqrt (x_sum_calc c ^ 2 + y_sum_calc c ^ 2 + z_sum_calc c ^ 2)
  -- line 223: the ruggedness raster
  Except.ok (fun c => 1 - result_vect c / (hood_size : ℚ) ^ 2)

/-- The reference VRM definition exactly as the specification words it
for claim C5: per cell `z = cos(slope_rad)`, `xy = sin(slope_rad)`,
`x = xy * sin(aspect_rad)` and `y = xy * cos(aspect_rad)` except that
`x = 0` and `y = 0` where aspect equals the sentinel `-1` (z
unaffected); then over the `n` by `n` window centered at each cell,
`sum_x`, `sum_y`, `sum_z` are the neighborhood sums,
`R = sqrt(sum_x^2 + sum_y^2 + sum_z^2)`, and the output cell is
`1 - R / n^2`. -/
def vrm_spec (ops : TrigOps) (n : ℕ) (slope aspect : Cell → ℚ) : Cell → ℚ :=
  let z := fun c => ops.cos (slope c * (ops.pi / 180))
  let xy := fun c => ops.sin (slope c * (ops.pi / 180))
  let x := fun c =>
    if aspect c = -1 then 0 else xy c * ops.sin (aspect c * (ops.pi / 180))
  let y := fun c =>
    if aspect c = -1 then 0 else xy c * ops.cos (aspect c * (ops.pi / 180))
  fun c =>
    let sum_x := focalSum n x c
    let sum_y := focalSum n y c
    let sum_z := focalSum n z c
    1 - ops.sqrt (sum_x ^ 2 + sum_y ^ 2 + sum_z ^ 2) / (n : ℚ) ^ 2

/-!
## Claim C1
-/

/-- Claim C1 (amended): when both bounds are `None`, `run_con` first
substitutes the fallback for a `None` true-value; it then returns that
value unchanged when it is a raster, and otherwise returns `None` — no
constant fallback raster is ever produced. -/
theorem run_con_no_bounds (g : ι → ℚ) (tv ta : RVal ι) :
    (∀ r : ι → ℚ, tv = RVal.raster r →
      run_con Option.none Option.none g tv ta = RVal.raster r)
  ∧ (∀ r : ι → ℚ, tv = RVal.none → ta = RVal.raster r →
      run_con Option.none Option.none g tv ta = RVal.raster r)
  ∧ (∀ q : ℚ, tv = RVal.num q →
      run_con Option.none Option.none g tv ta = RVal.none)
  ∧ (tv = RVal.none → (∀ r : ι → ℚ, ta ≠ RVal.raster r) →
      run_con Option.none Option.none g tv ta = RVal.none) := by
  refine ⟨fun r h => ?_, fun r h h2 => ?_, fun q h => ?_, fun h h2 => ?_⟩
  · subst h; rfl
  · subst h; subst h2; rfl
  · subst h; rfl
  · subst h
    cases ta with
    | none => rfl
    | num q => rfl
    | raster r => exact absurd rfl (h2 r)

/-- Claim C1 witness: a raster true-value passes through unchanged when
neither bound is set. -/
theorem run_con_no_bounds_w :
    run_con Option.none Option.none (fun _ : Unit => (0 : ℚ))
      (RVal.raster (fun _ => (5 : ℚ))) RVal.none
      = RVal.raster (fun _ => (5 : ℚ)) :=
  (run_con_no_bounds (fun _ : Unit => (0 : ℚ))
    (RVal.raster (fun _ => (5 : ℚ))) RVal.none).1 _ rfl

/-- Claim C1 counterexample: with both bounds `None` and a scalar
true-value (5) and scalar fallback (7), `run_con` returns `None`, not a
constant raster of the fallback value as the claim states. -/
theorem run_con_no_bounds_cx :
    run_con Option.none Option.none (fun _ : Unit => (0 : ℚ))
      (RVal.num 5) (RVal.num 7) = RVal.none := rfl

/-!
## Claim C2
-/

/-- Claim C2: with both bounds set a cell qualifies iff
`lower < cell < upper` strictly (so a cell equal to either bound gets
0); with only the lower bound set iff `cell ≥ lower`; with only the
upper bound set iff `cell ≤ upper`.  Qualifying cells receive the
true-value (after fallback substitution), all others 0. -/
theorem run_con_bounds (g : ι → ℚ) (tv ta : RVal ι) (lb ub : ℚ)
    (_h : RVal.orAlt tv ta ≠ RVal.none) :
    (run_con (some lb) (some ub) g tv ta
      = RVal.raster (fun c =>
          if lb < g c ∧ g c < ub then RVal.cellAt (RVal.orAlt tv ta) c else 0))
  ∧ (run_con (some lb) Option.none g tv ta
      = RVal.raster (fun c =>
          if lb ≤ g c then RVal.cellAt (RVal.orAlt tv ta) c else 0))
  ∧ (run_con Option.none (some ub) g tv ta
      = RVal.raster (fun c =>
          if g c ≤ ub then RVal.cellAt (RVal.orAlt tv ta) c else 0)) := by
  refine ⟨?_, rfl, rfl⟩
  show RVal.raster _ = RVal.raster _
  refine congrArg RVal.raster (funext fun c => ?_)
  by_cases h1 : lb < g c
  · by_cases h2 : g c < ub
    · simp [h1, h2]
    · simp [h1, h2]
  · simp [h1]

/-- Claim C2 witness: a cell exactly equal to the lower bound gets 0
under the two-bound predicate. -/
theorem run_con_bounds_w :
    RVal.cellAt
      (run_con (some 5) (some 10) (fun _ : Unit => (5 : ℚ))
        (RVal.num 3) RVal.none) ()
      = 0 := by
  rw [(run_con_bounds (fun _ : Unit => (5 : ℚ)) (RVal.num 3) RVal.none 5 10
    (fun h => RVal.noConfusion h)).1]
  norm_num [RVal.cellAt]

/-!
## Claim C3
-/

/-- Merge-fold characterization: the merged value at a cell is the first
nonzero value among the accumulated raster and the remaining grids in
order, or 0 when all are zero. -/
lemma mergeAll_find (gs : List (ι → ℚ)) :
    ∀ (g0 : ι → ℚ) (c : ι),
      mergeAll g0 gs c
        = Option.getD
            (List.find? (fun v => decide (v ≠ 0))
              (List.map (fun h => h c) (g0 :: gs))) 0 := by
  induction gs with
  | nil =>
      intro g0 c
      by_cases h : g0 c = 0 <;> simp [mergeAll, List.find?, h]
  | cons g gs ih =>
      intro g0 c
      show mergeAll (mergeStep g0 g) gs c = _
      rw [ih]
      by_cases h : g0 c = 0 <;>
        simp [mergeStep, List.find?, h]

/-- Claim C3: per-rule masks are folded in rule-table order with
first-write-wins precedence.  At every cell the merged value is the
first nonzero mask value in order, and a cell already classified by the
accumulated raster (value nonzero) is never reassigned by any later
grid in the fold. -/
theorem merge_first_write_wins (g0 : ι → ℚ) (gs : List (ι → ℚ)) (c : ι) :
    (mergeAll g0 gs c
      = Option.getD
          (List.find? (fun v => decide (v ≠ 0))
            (List.map (fun h => h c) (g0 :: gs))) 0)
  ∧ (g0 c ≠ 0 → mergeAll g0 gs c = g0 c) := by
  refine ⟨mergeAll_find gs g0 c, fun h => ?_⟩
  rw [mergeAll_find gs g0 c]
  simp [List.find?, h]

/-- Mask of rule A in the merge-precedence example: class 10 at cells 1
and 2. -/
def gridA : ℤ → ℚ := fun c => if c = 1 ∨ c = 2 then 10 else 0

/-- Mask of rule B in the merge-precedence example: class 20 at cells 2
and 3. -/
def gridB : ℤ → ℚ := fun c => if c = 2 ∨ c = 3 then 20 else 0

/-- Claim C3 witness: rule A (earlier, matches cells 1 and 2) and rule B
(later, matches cells 2 and 3); the merged raster assigns cell 2 to
rule A. -/
theorem merge_first_write_wins_w : mergeAll gridA [gridB] 2 = 10 := by
  rw [(merge_first_write_wins gridA [gridB] 2).2 (by norm_num [gridA])]
  norm_num [gridA]

/-!
## Claim C4
-/

/-- Claim C4: `classifyBPI` fails, and fails with `NoValidClasses`,
exactly when zero rules produced a usable mask; the empty rule table
fails with `NoValidClasses`; a rule whose mask fails the raster check is
merely skipped (it contributes no grid) and is not an error. -/
theorem classify_no_valid_classes (classes : List RuleRow)
    (bpi_broad_std bpi_fine_std slope bathy : ι → ℚ) :
    (∀ e : ErrKind,
      classifyBPI classes bpi_broad_std bpi_fine_std slope bathy = Except.error e
        ↔ (e = ErrKind.NoValidClasses
            ∧ classGrids classes bpi_broad_std bpi_fine_std slope bathy = []))
  ∧ classifyBPI ([] : List RuleRow) bpi_broad_std bpi_fine_std slope bathy
      = Except.error ErrKind.NoValidClasses
  ∧ (∀ (item : RuleRow) (rest : List RuleRow),
      maskGrid (ruleMask item bpi_broad_std bpi_fine_std slope bathy) = Option.none →
        classGrids (item :: rest) bpi_broad_std bpi_fine_std slope bathy
          = classGrids rest bpi_broad_std bpi_fine_std slope bathy) := by
  refine ⟨fun e => ?_, rfl, fun item rest h => ?_⟩
  · unfold classifyBPI
    cases hg : classGrids classes bpi_broad_std bpi_fine_std slope bathy with
    | nil => simp [eq_comm]
    | cons g gs => simp
  · unfold classGrids
    rw [List.filterMap_cons, h]

/-- Claim C4 witness: the empty rule table fails with
`NoValidClasses`. -/
theorem classify_no_valid_classes_w :
    classifyBPI ([] : List RuleRow) (fun _ : Unit => (0 : ℚ)) (fun _ => 0)
      (fun _ => 0) (fun _ => 0) = Except.error ErrKind.NoValidClasses :=
  (classify_no_valid_classes [] (fun _ : Unit => (0 : ℚ)) (fun _ => 0)
    (fun _ => 0) (fun _ => 0)).2.1

/-!
## Claim C5
-/

/-- Claim C5: for every choice of engine trigonometry, window size, and
slope and aspect rasters, `terrug` computes exactly the reference
vector-ruggedness-measure definition `vrm_spec` (z and xy from the
slope, x and y from the aspect with the `-1` sentinel zeroing them,
neighborhood sums, and `1 - R / n^2`). -/
theorem terrug_matches_vrm_spec (ops : TrigOps) (n : ℕ)
    (slope aspect : Cell → ℚ) :
    terrug ops n slope aspect = Except.ok (vrm_spec ops n slope aspect) := by
  have hx :
      (fun c => (if aspect c = -1 then 0 else ops.sin (aspect c * (ops.pi / 180)))
          * ops.sin (slope c * (ops.pi / 180)))
    = (fun c => if aspect c = -1 then (0 : ℚ)
          else ops.sin (slope c * (ops.pi / 180)) * ops.sin (aspect c * (ops.pi / 180))) := by
    funext c
    by_cases h : aspect c = -1 <;> simp [h, mul_comm]
  have hy :
      (fun c => (if aspect c = -1 then 0 else ops.cos (aspect c * (ops.pi / 180)))
          * ops.sin (slope c * (ops.pi / 180)))
    = (fun c => if aspect c = -1 then (0 : ℚ)
          else ops.sin (slope c * (ops.pi / 180)) * ops.cos (aspect c * (ops.pi / 180))) := by
    funext c
    by_cases h : aspect c = -1 <;> simp [h, mul_comm]
  unfold terrug vrm_spec
  dsimp only
  rw [hx, hy]

/-!
## Claim C6
-/

/-- Claim C6 (amended): every cell of the `bpi` output is
`truncToZero(d + 0.5)` where `d` is bathymetry minus the annular focal
mean; when `d + 0.5 ≥ 0` this is `floor(d + 0.5)` (the add-0.5-then-
truncate rule for nonnegative values), but when `d + 0.5 < 0` it is
`ceil(d + 0.5)` — truncation toward zero — not `floor(d + 0.5)` as the
claim states.  The output is integer-valued by construction. -/
theorem bpi_rounding (focalMean : ℕ → ℕ → (ι → ℚ) → ι → ℚ) (bathy : ι → ℚ)
    (inner_radius outer_radius : ℕ) (c : ι) :
    (bpi focalMean bathy inner_radius outer_radius
      = Except.ok (fun p =>
          truncToZero (bathy p - focalMean inner_radius outer_radius bathy p + 1/2)))
  ∧ (0 ≤ bathy c - focalMean inner_radius outer_radius bathy c + 1/2 →
      truncToZero (bathy c - focalMean inner_radius outer_radius bathy c + 1/2)
        = Int.floor (bathy c - focalMean inner_radius outer_radius bathy c + 1/2))
  ∧ (bathy c - focalMean inner_radius outer_radius bathy c + 1/2 < 0 →
      truncToZero (bathy c - focalMean inner_radius outer_radius bathy c + 1/2)
        = Int.ceil (bathy c - focalMean inner_radius outer_radius bathy c + 1/2)) := by
  refine ⟨rfl, fun h => ?_, fun h => ?_⟩
  · unfold truncToZero
    rw [if_pos h]
  · unfold truncToZero
    rw [if_neg (not_le.mpr h)]

/-- Claim C6 witness: at a negative difference of -1.7 the cell is the
ceiling of -1.2, i.e. -1 (truncation toward zero). -/
theorem bpi_rounding_w :
    truncToZero ((-17/10 : ℚ) - 0 + 1/2)
      = Int.ceil ((-17/10 : ℚ) - 0 + 1/2) :=
  (bpi_rounding (fun _ _ _ => fun _ => 0) (fun _ : Unit => (-17/10 : ℚ))
    1 3 ()).2.2 (by norm_num)

/-- Claim C6 counterexample: with a (concrete, engine-supplied) focal
mean of 0 and a bathymetry cell of -1.7, the code produces
`Int(-1.7 + 0.5) = -1`, while the rounding rule the claim states for
negative values, `floor(x + 0.5)`, gives -2. -/
theorem bpi_rounding_cx :
    (bpi (fun _ _ _ => fun _ => 0) (fun _ : Unit => (-17/10 : ℚ)) 1 3
      = Except.ok (fun _ => (-1 : ℤ)))
  ∧ bpiSpecRound ((-17/10 : ℚ) - 0) = -2 := by
  constructor
  · refine congrArg Except.ok (funext fun c => ?_)
    show truncToZero ((-17/10 : ℚ) - 0 + 1/2) = -1
    unfold truncToZero
    rw [if_neg (by norm_num)]
    rw [show ((-17/10 : ℚ) - 0 + 1/2) = (-6/5 : ℚ) by norm_num]
    rw [Int.ceil_eq_iff]
    norm_num
  · unfold bpiSpecRound
    rw [if_neg (by norm_num)]
    rw [show ((-17/10 : ℚ) - 0 + 1/2) = (-6/5 : ℚ) by norm_num]
    rw [Int.floor_eq_iff]
    norm_num

/-!
## Claim C7
-/

/-- Claim C7 (amended): `stdbpi` performs no zero-standard-deviation
check and never fails; for every engine-supplied mean and standard
deviation it returns `round(100 * (bpi - mean) / std)` per cell under
the add-0.5-then-truncate-toward-zero rule (for `std = 0` the division
is handed to the engine unchecked rather than raising
`DegenerateInput`). -/
theorem stdbpi_no_degenerate_check (bpi_mean bpi_std_dev : ℚ)
    (bpi_raster : ι → ℚ) :
    (∀ e : ErrKind, stdbpi bpi_mean bpi_std_dev bpi_raster ≠ Except.error e)
  ∧ (bpi_std_dev ≠ 0 →
      stdbpi bpi_mean bpi_std_dev bpi_raster
        = Except.ok (fun c =>
            truncToZero ((bpi_raster c - bpi_mean) / bpi_std_dev * 100 + 1/2))) := by
  exact ⟨fun e h => Except.noConfusion h, fun _ => rfl⟩

/-- Claim C7 witness: for a nonzero standard deviation the
standardization formula is applied cellwise. -/
theorem stdbpi_no_degenerate_check_w :
    stdbpi 0 1 (fun _ : Unit => (1 : ℚ))
      = Except.ok (fun _ => truncToZero (((1 : ℚ) - 0) / 1 * 100 + 1/2)) :=
  (stdbpi_no_degenerate_check 0 1 (fun _ : Unit => (1 : ℚ))).2 (by norm_num)

/-- Claim C7 counterexample: a constant raster has standard deviation 0,
and the call succeeds (`Except.ok`) instead of failing with
`DegenerateInput`: no such check exists in the code. -/
theorem stdbpi_no_degenerate_check_cx :
    Except.isOk (stdbpi 0 0 (fun _ : Unit => (0 : ℚ))) = true := rfl

/-!
## Claim C8
-/

/-- Claim C8 (amended): neither `bpi` nor `terrug` validates its
parameters; for every pair of radii (ordered or not) and every window
size (odd or even, including degenerate sizes) the functions proceed
and return a result, never `InvalidParameter`. -/
theorem no_param_validation (focalMean : ℕ → ℕ → (ι → ℚ) → ι → ℚ)
    (bathy : ι → ℚ) (inner_radius outer_radius : ℕ) (ops : TrigOps)
    (neighborhood_size : ℕ) (slope_raster aspect_raster : Cell → ℚ) :
    (∃ v, bpi focalMean bathy inner_radius outer_radius = Except.ok v)
  ∧ (∃ v, terrug ops neighborhood_size slope_raster aspect_raster = Except.ok v) :=
  ⟨⟨_, rfl⟩, ⟨_, rfl⟩⟩

/-- Claim C8 counterexample: `bpi` with radii violating
`inner < outer` (inner 5, outer 3) succeeds, and `terrug` with an even
window size (4) succeeds; neither signals `InvalidParameter`. -/
theorem no_param_validation_cx :
    Except.isOk (bpi (fun _ _ _ => fun _ => 0) (fun _ : Unit => (0 : ℚ)) 5 3) = true
  ∧ Except.isOk (terrug ⟨fun _ => 0, fun _ => 0, fun _ => 0, 0⟩ 4
      (fun _ => 0) (fun _ => 0)) = true :=
  ⟨rfl, rfl⟩

/-!
## Shared structure lemmas for the classification claims C9 and C10
-/

/-- A successful `classifyBPI` run yields the zone key built from all
rules, the merge of the usable grids, and the annotation of the merged
raster by that key. -/
lemma classify_ok_shape (classes : List RuleRow)
    (bpi_broad_std bpi_fine_std slope bathy : ι → ℚ)
    (out : (ι → ℚ) × (ι → String) × List (ℚ × String))
    (h : classifyBPI classes bpi_broad_std bpi_fine_std slope bathy = Except.ok out) :
    out.2.2 = zoneKey classes
  ∧ ∃ g gs, classGrids classes bpi_broad_std bpi_fine_std slope bathy = g :: gs
      ∧ out.1 = mergeAll g gs
      ∧ out.2.1 = annotate (zoneKey classes) (mergeAll g gs) := by
  unfold classifyBPI at h
  cases hg : classGrids classes bpi_broad_std bpi_fine_std slope bathy with
  | nil => rw [hg] at h; exact absurd h (by simp)
  | cons g gs =>
      rw [hg] at h
      injection h with h1
      subst h1
      exact ⟨rfl, g, gs, rfl, rfl, rfl⟩

/-- Folding dictionary insertions by prepending is reversal of the
mapped list onto the initial key. -/
lemma zoneKey_foldl (classes : List RuleRow) :
    ∀ init : List (ℚ × String),
      List.foldl (fun k item => (item.Class, item.Zone) :: k) init classes
        = List.reverse (List.map (fun item => (item.Class, item.Zone)) classes) ++ init := by
  induction classes with
  | nil => intro init; simp
  | cons a l ih =>
      intro init
      rw [List.foldl_cons, ih, List.map_cons, List.reverse_cons, List.append_assoc]
      simp

/-- Explicit form of the zone key: the reversed rule entries followed by
the reserved entry `0` to `"None"`. -/
lemma zoneKey_eq (classes : List RuleRow) :
    zoneKey classes
      = List.reverse (List.map (fun item => (item.Class, item.Zone)) classes)
          ++ [((0 : ℚ), "None")] :=
  zoneKey_foldl classes _

/-- First components of the zone key. -/
lemma zoneKey_fst (classes : List RuleRow) :
    List.map Prod.fst (zoneKey classes)
      = (List.map RuleRow.Class classes).reverse ++ [(0 : ℚ)] := by
  rw [zoneKey_eq, List.map_append, List.map_reverse, List.map_map]
  rfl

/-- The zone key has pairwise-distinct keys when the rule table has
pairwise-distinct nonzero class ids. -/
lemma zoneKey_nodup (classes : List RuleRow)
    (hpos : ∀ r ∈ classes, r.Class ≠ 0)
    (hnd : (List.map RuleRow.Class classes).Nodup) :
    (List.map Prod.fst (zoneKey classes)).Nodup := by
  rw [zoneKey_fst, List.nodup_append]
  refine ⟨List.nodup_reverse.mpr hnd, List.nodup_singleton _, ?_⟩
  intro a ha hb
  rw [List.mem_reverse] at ha
  obtain ⟨r, hr, rfl⟩ := List.mem_map.mp ha
  rw [List.mem_singleton] at hb
  exact hpos r hr hb

/-- Assoc-list lookup finds a member pair when keys are distinct. -/
lemma lookupZone_mem (ps : List (ℚ × String))
    (hnd : (List.map Prod.fst ps).Nodup) (q : ℚ × String) (hq : q ∈ ps) :
    lookupZone ps q.1 = some q.2 := by
  induction ps with
  | nil => cases hq
  | cons a l ih =>
      rw [List.map_cons, List.nodup_cons] at hnd
      rcases List.mem_cons.mp hq with h | h
      · subst h
        unfold lookupZone
        rw [List.find?_cons_of_pos _ (by simp)]
        rfl
      · have hne : ¬ (a.1 = q.1) := by
          intro e
          exact hnd.1 (e ▸ List.mem_map_of_mem Prod.fst h)
        unfold lookupZone
        rw [List.find?_cons_of_neg _ (by simp [hne])]
        exact ih hnd.2 h

/-- Assoc-list lookup skips a prefix none of whose keys match. -/
lemma lookupZone_skip (ps qs : List (ℚ × String)) (v : ℚ)
    (h : ∀ p ∈ ps, p.1 ≠ v) :
    lookupZone (ps ++ qs) v = lookupZone qs v := by
  induction ps with
  | nil => rfl
  | cons a l ih =>
      unfold lookupZone
      rw [List.cons_append,
        List.find?_cons_of_neg _ (by simp [h a (List.mem_cons_self a l)])]
      exact ih (fun p hp => h p (List.mem_cons_of_mem a hp))

/-- The reserved entry: looking up class id 0 yields `"None"` whenever
no rule redefines id 0. -/
lemma lookupZone_zero (classes : List RuleRow)
    (hpos : ∀ r ∈ classes, r.Class ≠ 0) :
    lookupZone (zoneKey classes) 0 = some ("None") := by
  rw [zoneKey_eq, lookupZone_skip]
  · rfl
  · intro p hp
    rw [List.mem_reverse] at hp
    obtain ⟨r, hr, rfl⟩ := List.mem_map.mp hp
    exact hpos r hr

/-!
## Claim C9
-/

/-- Claim C9: in the final annotation step of a successful run, every
cell whose merged value is present in the zone key is labeled with that
key entry, every cell whose value is absent is labeled
`"No Matching Zone"` (the run does not fail: the result is `Except.ok`),
and the key maps the reserved id 0 to `"None"` (whenever no rule
redefines id 0). -/
theorem classify_zone_labels (classes : List RuleRow)
    (bpi_broad_std bpi_fine_std slope bathy : ι → ℚ)
    (out : (ι → ℚ) × (ι → String) × List (ℚ × String))
    (h : classifyBPI classes bpi_broad_std bpi_fine_std slope bathy = Except.ok out) :
    (∀ (c : ι) (name : String),
       lookupZone out.2.2 (out.1 c) = some name → out.2.1 c = name)
  ∧ (∀ c : ι, lookupZone out.2.2 (out.1 c) = Option.none →
       out.2.1 c = "No Matching Zone")
  ∧ ((∀ r ∈ classes, r.Class ≠ 0) → lookupZone out.2.2 0 = some ("None")) := by
  obtain ⟨hk, g, gs, hg, hm, hz⟩ :=
    classify_ok_shape classes bpi_broad_std bpi_fine_std slope bathy out h
  refine ⟨fun c name hn => ?_, fun c hn => ?_, fun hr => ?_⟩
  · rw [hz]
    rw [hk, hm] at hn
    unfold annotate
    rw [hn]
    rfl
  · rw [hz]
    rw [hk, hm] at hn
    unfold annotate
    rw [hn]
    rfl
  · rw [hk]
    exact lookupZone_zero classes hr

/-!
## Claim C10
-/

/-- Claim C10: on every successful run (with the table invariant that
class ids are nonzero and pairwise distinct) the returned zone key has
an entry for every rule of the table — including rules that were skipped
for contributing no mask, since registration precedes the mask check —
plus the reserved entry 0 to `"None"`, and nothing else. -/
theorem classify_key_complete (classes : List RuleRow)
    (bpi_broad_std bpi_fine_std slope bathy : ι → ℚ)
    (out : (ι → ℚ) × (ι → String) × List (ℚ × String))
    (h : classifyBPI classes bpi_broad_std bpi_fine_std slope bathy = Except.ok out)
    (hpos : ∀ r ∈ classes, r.Class ≠ 0)
    (hnd : (List.map RuleRow.Class classes).Nodup) :
    (∀ r ∈ classes, lookupZone out.2.2 r.Class = some r.Zone)
  ∧ lookupZone out.2.2 0 = some ("None")
  ∧ (∀ (v : ℚ) (nm : String), lookupZone out.2.2 v = some nm →
       (v = 0 ∧ nm = "None") ∨ ∃ r ∈ classes, r.Class = v ∧ r.Zone = nm) := by
  obtain ⟨hk, g, gs, hg, hm, hz⟩ :=
    classify_ok_shape classes bpi_broad_std bpi_fine_std slope bathy out h
  refine ⟨fun r hr => ?_, ?_, fun v nm hlk => ?_⟩
  · rw [hk]
    exact lookupZone_mem (zoneKey classes) (zoneKey_nodup classes hpos hnd)
      (r.Class, r.Zone)
      (by
        rw [zoneKey_eq]
        exact List.mem_append_left _
          (List.mem_reverse.mpr (List.mem_map_of_mem _ hr)))
  · rw [hk]
    exact lookupZone_zero classes hpos
  · rw [hk] at hlk
    unfold lookupZone at hlk
    obtain ⟨q, hq, hq2⟩ := Option.map_eq_some'.mp hlk
    have hmem := List.mem_of_find?_eq_some hq
    have hpq := List.find?_some hq
    rw [decide_eq_true_eq] at hpq
    rw [zoneKey_eq] at hmem
    rcases List.mem_append.mp hmem with hmm | hmm
    · rw [List.mem_reverse] at hmm
      obtain ⟨r, hr, rfl⟩ := List.mem_map.mp hmm
      exact Or.inr ⟨r, hr, hpq, hq2⟩
    · rw [List.mem_singleton] at hmm
      subst hmm
      exact Or.inl ⟨hpq.symm, hq2.symm⟩

/-- Rule with every bound unset: its mask fails the raster check, so it
is skipped with a warning, yet its zone-key entry is registered. -/
def ruleSkip : RuleRow :=
  ⟨5, "Skipped", Option.none, Option.none, Option.none, Option.none,
    Option.none, Option.none, Option.none, Option.none⟩

/-- Rule with a depth lower bound: its mask is a raster and is kept. -/
def ruleOk : RuleRow :=
  ⟨7, "Found", some 0, Option.none, Option.none, Option.none,
    Option.none, Option.none, Option.none, Option.none⟩

/-- Two-rule table: one skipped rule, one usable rule. -/
def rules2 : List RuleRow := [ruleSkip, ruleOk]

/-- Constant raster of value 1 over a single cell. -/
def oneU : Unit → ℚ := fun _ => 1

/-- The successful classification result on `rules2`. -/
def res2 : (Unit → ℚ) × (Unit → String) × List (ℚ × String) :=
  Option.get (Except.toOption (classifyBPI rules2 oneU oneU oneU oneU)) (by rfl)

/-- Claim C9 witness: on the concrete two-rule table, the single cell is
merged to class 7 and annotated with that key entry. -/
theorem classify_zone_labels_w : res2.2.1 () = "Found" :=
  (classify_zone_labels rules2 oneU oneU oneU oneU res2 rfl).1 () "Found"
    (by decide)

/-- Claim C10 witness: the rule that was skipped (no usable mask) still
has its entry in the returned zone key. -/
theorem classify_key_complete_w :
    lookupZone res2.2.2 5 = some ("Skipped") :=
  (classify_key_complete rules2 oneU oneU oneU oneU res2 rfl
    (by intro r hr; fin_cases hr <;> norm_num [ruleSkip, ruleOk])
    (by decide)).1 ruleSkip (by simp [rules2])

end BathyDeriv
